import Mathlib

/-!
Verification of the `evm run` command harness (cmd/evm/runner.go).

The embedding models the Go source shallowly:
  * Go byte strings are `List Nat` (one entry per byte);
  * process-fatal paths (`os.Exit(1)`, `utils.Fatalf`, early `return err`)
    become `Except RunError`;
  * external collaborators (file system, stdin, the assembly compiler, the
    genesis parser, the VM engine entry points `runtime.Create` /
    `runtime.Call`, heap counters, the wall clock) are fields of an `Env`
    record, so the harness logic itself stays executable and deterministic.

Helper functions from the repository's `common` package (`FromHex`,
`Hex2Bytes`, `BytesToAddress`, `HexToAddress`) and `bytes.TrimSpace` are
translated byte for byte; trimming is modelled on the ASCII whitespace
class, which is the fragment the claims exercise.
-/

namespace EvmRun

/-- Go byte strings / byte slices, one `Nat` per byte. -/
abbrev Bytes := List Nat

/-- ASCII whitespace as recognised by `bytes.TrimSpace` on ASCII input:
tab, newline, vertical tab, form feed, carriage return, space. -/
def isSpaceByte (b : Nat) : Bool :=
  b == 0x09 || b == 0x0a || b == 0x0b || b == 0x0c || b == 0x0d || b == 0x20

/-- `bytes.TrimSpace`: drop leading and trailing whitespace bytes. -/
def trimSpace (s : Bytes) : Bytes :=
  ((s.dropWhile isSpaceByte).reverse.dropWhile isSpaceByte).reverse

/-- Value of one hex digit byte, per `encoding/hex`: 0-9, a-f, A-F. -/
def hexDigitVal (b : Nat) : Option Nat :=
  if 0x30 ≤ b ∧ b ≤ 0x39 then some (b - 0x30)
  else if 0x61 ≤ b ∧ b ≤ 0x66 then some (b - 0x61 + 10)
  else if 0x41 ≤ b ∧ b ≤ 0x46 then some (b - 0x41 + 10)
  else none

/-- `common.Hex2Bytes` = `hex.DecodeString` with the error dropped: decode
two-digit pairs left to right, stopping at the first invalid pair or at a
trailing lone digit and keeping the bytes decoded so far. -/
def hex2Bytes : Bytes → Bytes
  | h1 :: h2 :: rest =>
    match hexDigitVal h1, hexDigitVal h2 with
    | some a, some b => (16 * a + b) :: hex2Bytes rest
    | _, _ => []
  | _ => []

/-- Whether the string starts with ASCII 0x or 0X (common.has0xPrefix). -/
def has0xMark (s : Bytes) : Bool :=
  match s with
  | a :: b :: _ => a == 0x30 && (b == 0x78 || b == 0x58)
  | _ => false

/-- First stage of `common.FromHex`: strip a leading 0x / 0X marker. -/
def strip0x (s : Bytes) : Bytes :=
  if has0xMark s then s.drop 2 else s

/-- Second stage of `common.FromHex`: left-pad an odd-length string with
an ASCII zero digit. -/
def padOdd (s : Bytes) : Bytes :=
  if s.length % 2 = 1 then 0x30 :: s else s

/-- `common.FromHex`: strip the 0x / 0X marker, pad to even length, decode. -/
def fromHex (s : Bytes) : Bytes :=
  hex2Bytes (padOdd (strip0x s))

/-- `common.Address.SetBytes` composed with the 20-byte address type:
keep the last 20 bytes and left-pad with zero bytes. -/
def bytesToAddress (b : Bytes) : Bytes :=
  let b' := if b.length > 20 then b.drop (b.length - 20) else b
  List.replicate (20 - b'.length) 0 ++ b'

/-- `common.HexToAddress s = BytesToAddress (FromHex s)`. -/
def hexToAddress (s : Bytes) : Bytes :=
  bytesToAddress (fromHex s)

/-- ASCII bytes of the literal sender used for the default sender address. -/
def senderLiteral : Bytes := [0x73, 0x65, 0x6e, 0x64, 0x65, 0x72]

/-- ASCII bytes of the literal receiver used for the default receiver. -/
def receiverLiteral : Bytes := [0x72, 0x65, 0x63, 0x65, 0x69, 0x76, 0x65, 0x72]

/-- Fatal configuration failures of `runCmd`.  In the Go source each of
these is an `os.Exit(1)` / `utils.Fatalf` call or an early `return err`;
either way the run terminates before anything later in the function. -/
inductive RunError where
  | genesisError
  | stdinReadError
  | codeFileReadError
  | oddHexLength (len : Nat)
  | sourceReadError
  | compileError
  | cpuProfileError
  | inputFileReadError
  | oddInputLength
  | memProfileError
deriving DecidableEq, Repr

/-- The fields of `core.Genesis` consumed by `runCmd`.  `config` is the
chain-configuration reference (`none` mirrors a nil `Config` pointer);
`difficulty` is a `*big.Int`, hence optional. -/
structure Genesis where
  config : Option Nat
  gasLimit : Nat
  difficulty : Option Int
  timestamp : Nat
  coinbase : Bytes
  number : Nat
deriving DecidableEq, Repr

/-- `new(core.Genesis)`: every field at its zero value. -/
def emptyGenesis : Genesis :=
  { config := none, gasLimit := 0, difficulty := none, timestamp := 0,
    coinbase := List.replicate 20 0, number := 0 }

/-- The slice of `state.StateDB` the harness mutates: accounts created via
`CreateAccount` and code installed via `SetCode` (most recent first). -/
structure StateDB where
  accounts : List Bytes
  codes : List (Bytes × Bytes)
deriving DecidableEq, Repr

/-- `statedb.CreateAccount(addr)` as observed by this harness. -/
def StateDB.createAccount (s : StateDB) (addr : Bytes) : StateDB :=
  { s with accounts := addr :: s.accounts }

/-- `statedb.SetCode(addr, code)`. -/
def StateDB.setCode (s : StateDB) (addr code : Bytes) : StateDB :=
  { s with codes := (addr, code) :: s.codes }

/-- `statedb.GetCode(addr)`: the most recently installed code, nil (empty)
when none was installed. -/
def StateDB.getCode (s : StateDB) (addr : Bytes) : Bytes :=
  match s.codes.find? (fun p => p.1 == addr) with
  | some p => p.2
  | none => []

/-- The command-line flags `runCmd` reads.  String-valued flags are byte
strings; an empty list is an unset flag, matching the Go comparisons with
the empty string. `positional` is `ctx.Args().First()`. -/
structure Flags where
  verbosity : Nat
  disableMemory : Bool
  disableStack : Bool
  disableStorage : Bool
  disableReturnData : Bool
  machine : Bool
  debug : Bool
  create : Bool
  bench : Bool
  dump : Bool
  statdump : Bool
  genesis : Bytes
  sender : Bytes
  receiver : Bytes
  codeFile : Bytes
  codeFlag : Bytes
  positional : Bytes
  inputFile : Bytes
  inputFlag : Bytes
  gas : Nat
  gasPrice : Option Int
  value : Option Int
  cpuProfile : Bytes
  memProfile : Bytes

/-- Tracer variants of lines 129-136: the machine-readable JSON logger and
the structured debug logger.  The `logger.Config` both constructors take is
carried by the external constructors and not needed by the claims. -/
inductive TracerKind where
  | jsonLogger
  | structLogger
deriving DecidableEq, Repr

/-- Outcome of the tracer-selection block: which tracer (if any) is wired
into the execution configuration, and whether a `StructLogger` instance was
constructed (the `debugLogger` local of the Go source being non-nil). -/
structure TracerSetup where
  tracer : Option TracerKind
  debugLoggerMade : Bool
deriving DecidableEq, Repr

/-- Lines 129-136: machine flag selects the JSON logger; otherwise the
debug flag selects a struct logger as active tracer; otherwise a struct
logger is constructed but the `tracer` variable stays nil. -/
def selectTracer (machine debugFlag : Bool) : TracerSetup :=
  if machine then { tracer := some .jsonLogger, debugLoggerMade := false }
  else if debugFlag then { tracer := some .structLogger, debugLoggerMade := true }
  else { tracer := none, debugLoggerMade := true }

/-- Chain-configuration reference placed in the runtime config: either the
one from the genesis file or `params.AllEthashProtocolChanges`. -/
inductive ChainCfgRef where
  | genesis (id : Nat)
  | allEthash
deriving DecidableEq, Repr

/-- The `runtime.Config` fields populated at lines 205-219 and 234-238,
minus the state handle, which the embedding threads explicitly. -/
structure RunConfig where
  origin : Bytes
  gasLimit : Nat
  gasPrice : Option Int
  value : Option Int
  difficulty : Option Int
  time : Nat
  coinbase : Bytes
  blockNumber : Nat
  chainConfig : ChainCfgRef
  tracer : Option TracerKind
  debug : Bool

/-- Result of one invocation of the execution unit of work: output bytes,
gas left, and the optional execution error (its message as bytes). -/
structure ExecResult where
  output : Bytes
  gasLeft : Nat
  err : Option Bytes
deriving DecidableEq, Repr

/-- The two fields of `runtime.MemStats` read by `timedExec`. -/
structure MemStats where
  mallocs : Nat
  totalAlloc : Nat
deriving DecidableEq, Repr

/-- `execStats` of the Go source. -/
structure ExecStats where
  time : Nat
  allocs : Nat
  bytesAllocated : Nat
deriving DecidableEq, Repr

/-- External collaborators of the harness, captured as pure functions so a
single `Env` value fixes one run's observable world: file system, stdin,
assembly compiler, genesis parser, the two VM entry points, the benchmark
facility's iteration count and report, heap counters and wall clock (read
off the observable state), the state dumper, and profiling setup success. -/
structure Env where
  stdin : Option Bytes
  readFile : Bytes → Option Bytes
  compile : Bytes → Bytes → Option Bytes
  genesisOf : Bytes → Option Genesis
  genesisStateOf : Bytes → StateDB
  engineCreate : RunConfig → Bytes → StateDB → ExecResult × StateDB
  engineCall : RunConfig → Bytes → Bytes → StateDB → ExecResult × StateDB
  benchN : Nat
  benchReport : ExecStats
  mem : StateDB → MemStats
  clock : StateDB → Nat
  dumpOf : StateDB → Bytes
  cpuProfileOk : Bytes → Bool
  memProfileOk : Bytes → Bool

/-- Lines 137-147: with a genesis path, parse it and open the state at the
committed genesis root; otherwise a fresh empty state and a zero genesis. -/
def initState (env : Env) (f : Flags) : Except RunError (StateDB × Genesis) :=
  if f.genesis ≠ [] then
    match env.genesisOf f.genesis with
    | some gen => .ok (env.genesisStateOf f.genesis, gen)
    | none => .error .genesisError
  else .ok ({ accounts := [], codes := [] }, emptyGenesis)

/-- Lines 148-150 and the initializer at line 125: the sender flag when
non-empty, else the address derived from the ASCII sender literal. -/
def senderAddress (f : Flags) : Bytes :=
  if f.sender ≠ [] then hexToAddress f.sender else bytesToAddress senderLiteral

/-- Lines 153-155 and the initializer at line 126. -/
def receiverAddress (f : Flags) : Bytes :=
  if f.receiver ≠ [] then hexToAddress f.receiver else bytesToAddress receiverLiteral

/-- Lines 163-182: where the raw hexcode bytes come from when at least one
of the two code flags is set.  The code-file flag is inspected first; the
dash sentinel selects stdin, any other value the named file; only with the
code-file flag unset is the inline code flag used. -/
def hexcodeSource (env : Env) (f : Flags) : Except RunError Bytes :=
  if f.codeFile ≠ [] then
    if f.codeFile = [0x2d] then
      match env.stdin with
      | some b => .ok b
      | none => .error .stdinReadError
    else
      match env.readFile f.codeFile with
      | some b => .ok b
      | none => .error .codeFileReadError
  else .ok f.codeFlag

/-- Lines 183-188: trim whitespace, reject an odd byte length (reporting
that length), then `common.FromHex`. -/
def decodeHexFlag (h : Bytes) : Except RunError Bytes :=
  if (trimSpace h).length % 2 ≠ 0 then .error (.oddHexLength (trimSpace h).length)
  else .ok (fromHex (trimSpace h))

/-- Lines 157-200: full code resolution.  Flag-sourced hexcode when either
code flag is set; otherwise the positional file is read, compiled, and the
resulting hex string decoded with `common.Hex2Bytes`; otherwise no code. -/
def resolveCode (env : Env) (f : Flags) : Except RunError Bytes :=
  if f.codeFile ≠ [] ∨ f.codeFlag ≠ [] then
    match hexcodeSource env f with
    | .error e => .error e
    | .ok h => decodeHexFlag h
  else if f.positional ≠ [] then
    match env.readFile f.positional with
    | none => .error .sourceReadError
    | some src =>
      match env.compile f.positional src with
      | none => .error .compileError
      | some bin => .ok (hex2Bytes bin)
  else .ok []

/-- Lines 240-249: raw input bytes, from the input file when that flag is
set, else the literal inline input flag. -/
def inputSource (env : Env) (f : Flags) : Except RunError Bytes :=
  if f.inputFile ≠ [] then
    match env.readFile f.inputFile with
    | some b => .ok b
    | none => .error .inputFileReadError
  else .ok f.inputFlag

/-- Lines 240-255: trim, reject odd length, decode. -/
def resolveInput (env : Env) (f : Flags) : Except RunError Bytes :=
  match inputSource env f with
  | .error e => .error e
  | .ok h =>
    if (trimSpace h).length % 2 ≠ 0 then .error .oddInputLength
    else .ok (fromHex (trimSpace h))

/-- Lines 201-204: the gas flag, overridden by a nonzero genesis gas limit. -/
def initialGas (gasFlag genesisGasLimit : Nat) : Nat :=
  if genesisGasLimit ≠ 0 then genesisGasLimit else gasFlag

/-- Lines 205-219 and 234-238: assemble the runtime configuration. -/
def mkConfig (f : Flags) (gen : Genesis) (sender : Bytes) (gas0 : Nat)
    (tracer : Option TracerKind) : RunConfig :=
  { origin := sender, gasLimit := gas0, gasPrice := f.gasPrice,
    value := f.value, difficulty := gen.difficulty, time := gen.timestamp,
    coinbase := gen.coinbase, blockNumber := gen.number,
    chainConfig :=
      match (if f.genesis ≠ [] then gen.config else none) with
      | some c => ChainCfgRef.genesis c
      | none => ChainCfgRef.allEthash,
    tracer := tracer, debug := f.debug || f.machine }

/-- Lines 221-232: CPU-profile setup; any failure exits the process. -/
def checkCpuProfile (env : Env) (f : Flags) : Except RunError Unit :=
  if f.cpuProfile ≠ [] then
    if env.cpuProfileOk f.cpuProfile then .ok () else .error .cpuProfileError
  else .ok ()

/-- Lines 282-293: heap-profile write; any failure exits the process. -/
def checkMemProfile (env : Env) (f : Flags) : Except RunError Unit :=
  if f.memProfile ≠ [] then
    if env.memProfileOk f.memProfile then .ok () else .error .memProfileError
  else .ok ()

/-- Execution mode chosen at line 258. -/
inductive Mode where
  | create
  | call
deriving DecidableEq, Repr

/-- Pre-invocation dispatch outcome: the mode, the byte string handed to
the chosen engine entry point, and the state store after the dispatch
block's own writes. -/
structure DispatchResult where
  mode : Mode
  callData : Bytes
  state : StateDB
deriving DecidableEq, Repr

/-- Lines 257-271.  Create mode: `input = append(code, input...)`, engine
invoked on the concatenation.  Call mode: non-empty resolved code is first
installed at the receiver via `SetCode`; the engine is invoked with the
receiver and the resolved input. -/
def dispatch (createFlag : Bool) (code input receiver : Bytes)
    (st : StateDB) : DispatchResult :=
  if createFlag then
    { mode := .create, callData := code ++ input, state := st }
  else
    { mode := .call, callData := input,
      state := if code ≠ [] then st.setCode receiver code else st }

/-- The `execFunc` closure of lines 260-270, as a state-passing function:
`runtime.Create` on the concatenated call data, or `runtime.Call` on the
receiver and input. -/
def mkExecFunc (env : Env) (cfg : RunConfig) (d : DispatchResult)
    (receiver : Bytes) : StateDB → ExecResult × StateDB :=
  match d.mode with
  | .create => fun st => env.engineCreate cfg d.callData st
  | .call => fun st => env.engineCall cfg receiver d.callData st

/-- The `for i := 0; i < b.N; i++ { output, gasLeft, err = execFunc() }`
loop inside `testing.Benchmark`: each iteration overwrites the captured
result variables, whose pre-loop value is the zero value. -/
def benchLoop {σ : Type} (f : σ → ExecResult × σ) :
    Nat → ExecResult × σ → ExecResult × σ
  | 0, acc => acc
  | n + 1, (_, s) => benchLoop f n (f s)

/-- State after `n` sequential invocations of the unit of work. -/
def execIter {σ : Type} (f : σ → ExecResult × σ) : Nat → σ → σ
  | 0, s => s
  | n + 1, s => execIter f n (f s).2

/-- Lines 81-106, `timedExec`.  Bench mode: run the benchmark loop for the
iteration count the testing facility chose and copy its per-op report into
the stats.  Normal mode: snapshot the heap counters, invoke once, and
derive elapsed time and allocation deltas from the two snapshots. -/
def timedExec {σ : Type} (bench : Bool) (benchN : Nat)
    (benchReport : ExecStats) (mem : σ → MemStats) (clock : σ → Nat)
    (execFunc : σ → ExecResult × σ) (s : σ) : ExecResult × ExecStats × σ :=
  if bench then
    let rs := benchLoop execFunc benchN ({ output := [], gasLeft := 0, err := none }, s)
    (rs.1, benchReport, rs.2)
  else
    let before := mem s
    let rs := execFunc s
    let after := mem rs.2
    (rs.1, { time := clock rs.2 - clock s,
             allocs := after.mallocs - before.mallocs,
             bytesAllocated := after.totalAlloc - before.totalAlloc }, rs.2)

/-- ASCII lowercase hex digit of a value below 16. -/
def hexDigitChar (n : Nat) : Nat :=
  if n < 10 then 0x30 + n else 0x61 + (n - 10)

/-- Lowercase hex rendering of a byte string, two digits per byte, as
produced for a byte slice by the x-with-hash-mark printf verb. -/
def bytesToHex (bs : Bytes) : Bytes :=
  (bs.map (fun b => [hexDigitChar (b / 16 % 16), hexDigitChar (b % 16)])).flatten

/-- The output line of line 312: ASCII 0x followed by the lowercase hex of
the output bytes (just 0x for an empty slice). -/
def outputLine (output : Bytes) : Bytes :=
  [0x30, 0x78] ++ bytesToHex output

/-- The error line of line 314: one ASCII space, the word error, a colon, a
space, then the error message. -/
def errorLine (msg : Bytes) : Bytes :=
  [0x20, 0x65, 0x72, 0x72, 0x6f, 0x72, 0x3a, 0x20] ++ msg

/-- Lines 311-316: with a nil active tracer, standard output receives the
hex result line and, on an execution error, the error line; with an active
tracer this block prints nothing. -/
def resultLines (tracer : Option TracerKind) (output : Bytes)
    (err : Option Bytes) : List Bytes :=
  match tracer with
  | none =>
    outputLine output ::
      (match err with
       | some m => [errorLine m]
       | none => [])
  | some _ => []

/-- Observable outcome of a run that reached the end of `runCmd`. -/
structure RunOutcome where
  output : Bytes
  gasLeft : Nat
  execErr : Option Bytes
  stats : ExecStats
  finalState : StateDB
  dumpOut : Option Bytes
  statsLine : Bool
  gasUsed : Nat
  resultLines : List Bytes
deriving DecidableEq, Repr

/-- Lines 108-318, `runCmd`, in source order: tracer selection, state or
genesis initialisation, sender creation, receiver resolution, code
resolution, initial gas, runtime configuration, CPU-profile setup, input
resolution, dispatch, timed execution, optional dump, heap-profile write,
and the final result rendering.  Each fatal path is an `.error`. -/
def runCmd (env : Env) (f : Flags) : Except RunError RunOutcome :=
  let ts := selectTracer f.machine f.debug
  match initState env f with
  | .error e => .error e
  | .ok (st0, gen) =>
    let sender := senderAddress f
    let st1 := st0.createAccount sender
    let receiver := receiverAddress f
    match resolveCode env f with
    | .error e => .error e
    | .ok code =>
      let gas0 := initialGas f.gas gen.gasLimit
      let cfg := mkConfig f gen sender gas0 ts.tracer
      match checkCpuProfile env f with
      | .error e => .error e
      | .ok _ =>
        match resolveInput env f with
        | .error e => .error e
        | .ok input0 =>
          let d := dispatch f.create code input0 receiver st1
          let execFunc := mkExecFunc env cfg d receiver
          let res := timedExec f.bench env.benchN env.benchReport env.mem
            env.clock execFunc d.state
          let dumpOut := if f.dump then some (env.dumpOf res.2.2) else none
          match checkMemProfile env f with
          | .error e => .error e
          | .ok _ =>
            .ok { output := res.1.output, gasLeft := res.1.gasLeft,
                  execErr := res.1.err, stats := res.2.1,
                  finalState := res.2.2, dumpOut := dumpOut,
                  statsLine := f.bench || f.statdump,
                  gasUsed := gas0 - res.1.gasLeft,
                  resultLines := resultLines ts.tracer res.1.output res.1.err }

/-- A flag record with every flag unset, the basis of concrete runs. -/
def baseFlags : Flags :=
  { verbosity := 0, disableMemory := false, disableStack := false,
    disableStorage := false, disableReturnData := false, machine := false,
    debug := false, create := false, bench := false, dump := false,
    statdump := false, genesis := [], sender := [], receiver := [],
    codeFile := [], codeFlag := [], positional := [], inputFile := [],
    inputFlag := [], gas := 0, gasPrice := none, value := none,
    cpuProfile := [], memProfile := [] }

/-- A minimal environment: empty world, echo-free engines. -/
def baseEnv : Env :=
  { stdin := none, readFile := fun _ => none, compile := fun _ _ => none,
    genesisOf := fun _ => none,
    genesisStateOf := fun _ => { accounts := [], codes := [] },
    engineCreate := fun _ _ st => ({ output := [], gasLeft := 0, err := none }, st),
    engineCall := fun _ _ _ st => ({ output := [], gasLeft := 0, err := none }, st),
    benchN := 1, benchReport := { time := 0, allocs := 0, bytesAllocated := 0 },
    mem := fun _ => { mallocs := 0, totalAlloc := 0 }, clock := fun _ => 0,
    dumpOf := fun _ => [], cpuProfileOk := fun _ => true,
    memProfileOk := fun _ => true }

/-- Environment whose file system holds one file, at the one-byte path f
(0x66), containing the two ASCII digit bytes 6 1. -/
def cexEnv : Env :=
  { baseEnv with readFile := fun p => if p = [0x66] then some [0x36, 0x31] else none }

/-- Flags supplying both code flags at once: the code-file flag names the
file of `cexEnv` and the inline code flag holds the ASCII digits 6 0. -/
def cexFlags : Flags :=
  { baseFlags with codeFile := [0x66], codeFlag := [0x36, 0x30] }

/-- C1 counterexample: with both code flags supplied, the inline code flag
holds hex digits 60 and the code file holds hex digits 61.  The claim says
the inline flag takes precedence, which would resolve the code to the byte
0x60; the source inspects the code-file flag first (line 164), so the
resolved code is the file's byte 0x61. -/
theorem c1_counterexample :
    resolveCode cexEnv cexFlags = Except.ok [0x61]
  ∧ decodeHexFlag cexFlags.codeFlag = Except.ok [0x60]
  ∧ resolveCode cexEnv cexFlags ≠ Except.ok [0x60] := by
  refine ⟨rfl, rfl, fun h => ?_⟩
  have h' : ([0x61] : Bytes) = [0x60] := Except.ok.inj h
  simp at h'

/-- C1 (amended): code resolution precedence as the source implements it.
The code-file flag, when supplied, takes precedence over the inline code
flag and the positional source, reading standard input when it equals the
dash sentinel and the named file otherwise; the inline code flag is used
when it is supplied and the code-file flag is not; the positional source is
compiled only when neither flag is supplied; with no source at all the
resolved code is empty. -/
theorem c1_code_resolution (env : Env) (f : Flags) :
    (f.codeFile = [0x2d] →
      resolveCode env f =
        match env.stdin with
        | some h => decodeHexFlag h
        | none => Except.error RunError.stdinReadError)
  ∧ (f.codeFile ≠ [] → f.codeFile ≠ [0x2d] →
      resolveCode env f =
        match env.readFile f.codeFile with
        | some h => decodeHexFlag h
        | none => Except.error RunError.codeFileReadError)
  ∧ (f.codeFile = [] → f.codeFlag ≠ [] →
      resolveCode env f = decodeHexFlag f.codeFlag)
  ∧ (f.codeFile = [] → f.codeFlag = [] → f.positional ≠ [] →
      resolveCode env f =
        match env.readFile f.positional with
        | none => Except.error RunError.sourceReadError
        | some src =>
          match env.compile f.positional src with
          | none => Except.error RunError.compileError
          | some bin => Except.ok (hex2Bytes bin))
  ∧ (f.codeFile = [] → f.codeFlag = [] → f.positional = [] →
      resolveCode env f = Except.ok []) := by
  refine ⟨?_, ?_, ?_, ?_, ?_⟩
  · intro h1
    have hne : f.codeFile ≠ [] := by simp [h1]
    cases hstdin : env.stdin <;>
      simp [resolveCode, hexcodeSource, h1, hne, hstdin]
  · intro h1 h2
    cases hrf : env.readFile f.codeFile <;>
      simp [resolveCode, hexcodeSource, h1, h2, hrf]
  · intro h1 h2
    simp [resolveCode, hexcodeSource, h1, h2]
  · intro h1 h2 h3
    cases hrf : env.readFile f.positional <;>
      simp [resolveCode, h1, h2, h3, hrf]
  · intro h1 h2 h3
    simp [resolveCode, h1, h2, h3]

/-- Environment with stdin holding the ASCII digit bytes 6 1. -/
def stdinEnv : Env := { baseEnv with stdin := some [0x36, 0x31] }

/-- Flags selecting the stdin sentinel as code file. -/
def dashFlags : Flags := { baseFlags with codeFile := [0x2d] }

/-- Flags supplying only the inline code flag, ASCII digits 6 0. -/
def inlineFlags : Flags := { baseFlags with codeFlag := [0x36, 0x30] }

/-- C1 witness: the amended precedence evaluated on concrete runs — stdin
sentinel, inline-only, and no source at all. -/
theorem c1_code_resolution_witness :
    resolveCode stdinEnv dashFlags = decodeHexFlag [0x36, 0x31]
  ∧ resolveCode baseEnv inlineFlags = decodeHexFlag [0x36, 0x30]
  ∧ resolveCode baseEnv baseFlags = Except.ok [] :=
  ⟨(c1_code_resolution stdinEnv dashFlags).1 rfl,
   (c1_code_resolution baseEnv inlineFlags).2.2.1 rfl (by decide),
   (c1_code_resolution baseEnv baseFlags).2.2.2.2 rfl rfl rfl⟩

/-- C2: in create mode the byte string handed to the engine's create entry
point is the resolved code followed by the resolved input, byte for byte —
both as the dispatch block computes it (line 259) and as the execution
closure passes it on (lines 260-263). -/
theorem c2_create_calldata (env : Env) (cfg : RunConfig)
    (code input receiver : Bytes) (st s : StateDB) :
    (dispatch true code input receiver st).callData = code ++ input
  ∧ mkExecFunc env cfg (dispatch true code input receiver st) receiver s
      = env.engineCreate cfg (code ++ input) s :=
  ⟨rfl, rfl⟩

/-- C3: in call mode, non-empty resolved code is installed at the receiver
before invocation, so the receiver's code in the dispatched state is the
resolved code; with empty resolved code the dispatch block leaves the state
store untouched.  The call-mode engine is then invoked on the receiver and
the resolved input. -/
theorem c3_call_code_install (env : Env) (cfg : RunConfig)
    (code input receiver : Bytes) (st s : StateDB) :
    (code ≠ [] →
      ((dispatch false code input receiver st).state).getCode receiver = code)
  ∧ (code = [] → (dispatch false code input receiver st).state = st)
  ∧ mkExecFunc env cfg (dispatch false code input receiver st) receiver s
      = env.engineCall cfg receiver input s := by
  refine ⟨?_, ?_, rfl⟩
  · intro h
    simp [dispatch, StateDB.setCode, StateDB.getCode, h, List.find?]
  · intro h
    simp [dispatch, h]

/-- C3 witness: installing the one-byte code 0x60 at the one-byte receiver
address 0x01 in the empty state, and the no-write case. -/
theorem c3_call_code_install_witness :
    ((dispatch false [0x60] [] [0x01] { accounts := [], codes := [] }).state).getCode [0x01]
      = [0x60]
  ∧ (dispatch false [] [] [0x01] { accounts := [], codes := [] }).state
      = { accounts := [], codes := [] } :=
  ⟨(c3_call_code_install baseEnv (mkConfig baseFlags emptyGenesis [] 0 none)
      [0x60] [] [0x01] { accounts := [], codes := [] }
      { accounts := [], codes := [] }).1 (by decide),
   (c3_call_code_install baseEnv (mkConfig baseFlags emptyGenesis [] 0 none)
      [] [] [0x01] { accounts := [], codes := [] }
      { accounts := [], codes := [] }).2.1 rfl⟩

/-- C4: the initial gas is the genesis gas limit whenever that limit is
nonzero, regardless of the gas flag; with a zero genesis gas limit it is
the gas flag value; and without a genesis file the effective genesis view
is the zero genesis, whose gas limit is zero. -/
theorem c4_initial_gas (gasFlag gl : Nat) (env : Env) (f : Flags)
    (st : StateDB) (gen : Genesis) :
    (gl ≠ 0 → initialGas gasFlag gl = gl)
  ∧ (gl = 0 → initialGas gasFlag gl = gasFlag)
  ∧ (f.genesis = [] → initState env f = .ok (st, gen) → gen.gasLimit = 0) := by
  refine ⟨?_, ?_, ?_⟩
  · intro h; simp [initialGas, h]
  · intro h; simp [initialGas, h]
  · intro h1 h2
    simp [initState, h1] at h2
    rw [← h2.2]
    rfl

/-- C4 witness: gas flag 5 against genesis limits 7 and 0, and the
genesis-free initial state. -/
theorem c4_initial_gas_witness :
    initialGas 5 7 = 7
  ∧ initialGas 5 0 = 5
  ∧ emptyGenesis.gasLimit = 0 :=
  ⟨(c4_initial_gas 5 7 baseEnv baseFlags { accounts := [], codes := [] }
      emptyGenesis).1 (by decide),
   (c4_initial_gas 5 0 baseEnv baseFlags { accounts := [], codes := [] }
      emptyGenesis).2.1 rfl,
   (c4_initial_gas 5 0 baseEnv baseFlags { accounts := [], codes := [] }
      emptyGenesis).2.2 rfl rfl⟩

/-- C5: whenever the raw code hex string (from either code flag source) or
the raw input hex string has odd length after trimming, `runCmd` stops with
the corresponding length-validation error.  The engine entry points are
only ever reached in the `.ok` continuation of `runCmd`, so an `.error`
result means the unit of work was never invoked and nothing was truncated.
The earlier stages (genesis initialisation; for the input conjunct also
code resolution and CPU-profile setup) are assumed to succeed, since in
source order they run first. -/
theorem c5_odd_length_fatal (env : Env) (f : Flags) (st : StateDB)
    (gen : Genesis) (raw rawIn : Bytes) :
    (initState env f = .ok (st, gen) →
      (f.codeFile ≠ [] ∨ f.codeFlag ≠ []) →
      hexcodeSource env f = .ok raw →
      (trimSpace raw).length % 2 = 1 →
      runCmd env f = .error (.oddHexLength (trimSpace raw).length))
  ∧ (∀ code,
      initState env f = .ok (st, gen) →
      resolveCode env f = .ok code →
      checkCpuProfile env f = .ok () →
      inputSource env f = .ok rawIn →
      (trimSpace rawIn).length % 2 = 1 →
      runCmd env f = .error .oddInputLength) := by
  constructor
  · intro hinit hflags hsrc hodd
    have hrc : resolveCode env f = .error (.oddHexLength (trimSpace raw).length) := by
      unfold resolveCode
      rw [if_pos hflags, hsrc]
      show decodeHexFlag raw = _
      unfold decodeHexFlag
      rw [if_pos (by omega)]
    simp only [runCmd, hinit, hrc]
  · intro code hinit hcode hcpu hin hodd
    have hri : resolveInput env f = .error .oddInputLength := by
      unfold resolveInput
      rw [hin]
      show (if (trimSpace rawIn).length % 2 ≠ 0 then _ else _) = _
      rw [if_pos (by omega)]
    simp only [runCmd, hinit, hcode, hcpu, hri]

/-- Flags with an odd-length inline code string: the single ASCII digit 6. -/
def oddCodeFlags : Flags := { baseFlags with codeFlag := [0x36] }

/-- Flags with an odd-length inline input string: the single ASCII digit 6. -/
def oddInputFlags : Flags := { baseFlags with inputFlag := [0x36] }

/-- C5 witness: a one-digit inline code string and a one-digit inline input
string each abort the concrete run with the length error. -/
theorem c5_odd_length_fatal_witness :
    runCmd baseEnv oddCodeFlags = .error (.oddHexLength 1)
  ∧ runCmd baseEnv oddInputFlags = .error .oddInputLength :=
  ⟨(c5_odd_length_fatal baseEnv oddCodeFlags { accounts := [], codes := [] }
      emptyGenesis [0x36] []).1 rfl (Or.inr (by decide)) rfl (by decide),
   (c5_odd_length_fatal baseEnv oddInputFlags { accounts := [], codes := [] }
      emptyGenesis [] [0x36]).2 [] rfl rfl rfl rfl (by decide)⟩

/-- A benchmark loop with at least one iteration ends with the result of
the final invocation, the one performed from the state reached after all
earlier iterations; every earlier result is overwritten. -/
lemma benchLoop_last {σ : Type} (f : σ → ExecResult × σ) :
    ∀ n, 1 ≤ n → ∀ (r₀ : ExecResult) (s : σ),
      benchLoop f n (r₀, s) = f (execIter f (n - 1) s) := by
  intro n
  induction n with
  | zero => omega
  | succ m ih =>
    intro _ r₀ s
    cases m with
    | zero => rfl
    | succ k =>
      have h2 := ih (Nat.succ_le_succ (Nat.zero_le k)) (f s).1 (f s).2
      calc benchLoop f (k + 1 + 1) (r₀, s)
          = benchLoop f (k + 1) ((f s).1, (f s).2) := rfl
        _ = f (execIter f (k + 1 - 1) (f s).2) := h2
        _ = f (execIter f (k + 1 + 1 - 1) s) := rfl

/-- C6: in benchmark mode `timedExec` runs the unit of work the number of
times the benchmarking facility chose (at least once) and keeps only the
last invocation's output, gas left and error as the reported result, with
the final state being the one after all iterations and the stats copied
from the facility's report; in normal mode it invokes the unit of work
exactly once — result and final state are those of a single invocation from
the initial state — and the reported stats are the wall-clock and heap
counter deltas between the snapshots taken immediately around that one
invocation. -/
theorem c6_timedExec (σ : Type) (f : σ → ExecResult × σ) (s : σ) (n : Nat)
    (hn : 1 ≤ n) (report : ExecStats) (mem : σ → MemStats)
    (clock : σ → Nat) :
    ((timedExec true n report mem clock f s).1 = (f (execIter f (n - 1) s)).1
      ∧ (timedExec true n report mem clock f s).2.2 = (f (execIter f (n - 1) s)).2
      ∧ (timedExec true n report mem clock f s).2.1 = report)
  ∧ ((timedExec false n report mem clock f s).1 = (f s).1
      ∧ (timedExec false n report mem clock f s).2.2 = (f s).2
      ∧ (timedExec false n report mem clock f s).2.1
          = { time := clock (f s).2 - clock s,
              allocs := (mem (f s).2).mallocs - (mem s).mallocs,
              bytesAllocated := (mem (f s).2).totalAlloc - (mem s).totalAlloc }) := by
  have h := benchLoop_last f n hn { output := [], gasLeft := 0, err := none } s
  constructor
  · refine ⟨?_, ?_, ?_⟩ <;> simp [timedExec, h]
  · refine ⟨rfl, rfl, rfl⟩

/-- A concrete unit of work over a counter state: iteration from state s
reports output [s] and gas left s, then increments the counter. -/
def wExec : Nat → ExecResult × Nat :=
  fun s => ({ output := [s], gasLeft := s, err := none }, s + 1)

/-- A concrete heap-counter view of the counter state. -/
def wMem : Nat → MemStats := fun s => { mallocs := 2 * s, totalAlloc := 3 * s }

/-- A concrete wall clock over the counter state. -/
def wClock : Nat → Nat := fun s => 5 * s

/-- C6 witness: three benchmark iterations from state 0 retain the third
invocation's result, and a normal-mode run from state 0 performs one
invocation with its snapshot deltas. -/
theorem c6_timedExec_witness :
    ((timedExec true 3 { time := 7, allocs := 8, bytesAllocated := 9 }
        wMem wClock wExec 0).1 = (wExec (execIter wExec (3 - 1) 0)).1
      ∧ (timedExec true 3 { time := 7, allocs := 8, bytesAllocated := 9 }
          wMem wClock wExec 0).2.2 = (wExec (execIter wExec (3 - 1) 0)).2
      ∧ (timedExec true 3 { time := 7, allocs := 8, bytesAllocated := 9 }
          wMem wClock wExec 0).2.1 = { time := 7, allocs := 8, bytesAllocated := 9 })
  ∧ ((timedExec false 3 { time := 7, allocs := 8, bytesAllocated := 9 }
        wMem wClock wExec 0).1 = (wExec 0).1
      ∧ (timedExec false 3 { time := 7, allocs := 8, bytesAllocated := 9 }
          wMem wClock wExec 0).2.2 = (wExec 0).2
      ∧ (timedExec false 3 { time := 7, allocs := 8, bytesAllocated := 9 }
          wMem wClock wExec 0).2.1
          = { time := wClock (wExec 0).2 - wClock 0,
              allocs := (wMem (wExec 0).2).mallocs - (wMem 0).mallocs,
              bytesAllocated := (wMem (wExec 0).2).totalAlloc - (wMem 0).totalAlloc }) :=
  c6_timedExec Nat wExec 0 3 (by decide)
    { time := 7, allocs := 8, bytesAllocated := 9 } wMem wClock

/-- C7: with neither tracer flag set the selected tracer is nil, and the
final rendering step prints exactly one line holding ASCII 0x followed by
the lowercase hex of the output bytes, plus, when the execution returned an
error, a second line holding a space, the word error, a colon, a space and
the message; with either tracer flag set the step prints nothing.  Each
list element is one printed line, the trailing newline of each `Printf`
being the line separator. -/
theorem c7_result_rendering (output : Bytes) (e : Option Bytes)
    (machine debugFlag : Bool) :
    (machine = false → debugFlag = false →
      resultLines (selectTracer machine debugFlag).tracer output e
        = ([0x30, 0x78] ++ bytesToHex output) ::
            (match e with
             | some m => [[0x20, 0x65, 0x72, 0x72, 0x6f, 0x72, 0x3a, 0x20] ++ m]
             | none => []))
  ∧ (machine = true ∨ debugFlag = true →
      resultLines (selectTracer machine debugFlag).tracer output e = []) := by
  constructor
  · intro h1 h2
    subst h1; subst h2
    cases e <;> rfl
  · intro h
    rcases h with h | h
    · subst h
      cases debugFlag <;> rfl
    · subst h
      cases machine <;> rfl

/-- C7 witness: the two-byte output 0x60 0x05 with an execution error whose
message is the ASCII byte for e, rendered without tracer flags, and the
same result suppressed under the machine flag. -/
theorem c7_result_rendering_witness :
    resultLines (selectTracer false false).tracer [0x60, 0x05] (some [0x65])
      = [[0x30, 0x78, 0x36, 0x30, 0x30, 0x35],
         [0x20, 0x65, 0x72, 0x72, 0x6f, 0x72, 0x3a, 0x20, 0x65]]
  ∧ resultLines (selectTracer true false).tracer [0x60, 0x05] (some [0x65])
      = [] :=
  ⟨(c7_result_rendering [0x60, 0x05] (some [0x65]) false false).1 rfl rfl,
   (c7_result_rendering [0x60, 0x05] (some [0x65]) true false).2 (Or.inl rfl)⟩

/-- C8: exactly one tracer variant is selected before execution.  With the
machine flag the JSON tracer is active (and no struct logger is built);
otherwise with the debug flag a struct logger is built and active;
otherwise a struct logger is still built for later log rendering but the
active tracer stays empty. -/
theorem c8_tracer_selection (machine debugFlag : Bool) :
    (machine = true →
      selectTracer machine debugFlag
        = { tracer := some .jsonLogger, debugLoggerMade := false })
  ∧ (machine = false → debugFlag = true →
      selectTracer machine debugFlag
        = { tracer := some .structLogger, debugLoggerMade := true })
  ∧ (machine = false → debugFlag = false →
      selectTracer machine debugFlag
        = { tracer := none, debugLoggerMade := true }) := by
  refine ⟨?_, ?_, ?_⟩
  · intro h; subst h; rfl
  · intro h1 h2; subst h1; subst h2; rfl
  · intro h1 h2; subst h1; subst h2; rfl

/-- C8 witness: the three concrete flag combinations. -/
theorem c8_tracer_selection_witness :
    selectTracer true true
      = { tracer := some .jsonLogger, debugLoggerMade := false }
  ∧ selectTracer false true
      = { tracer := some .structLogger, debugLoggerMade := true }
  ∧ selectTracer false false
      = { tracer := none, debugLoggerMade := true } :=
  ⟨(c8_tracer_selection true true).1 rfl,
   (c8_tracer_selection false true).2.1 rfl rfl,
   (c8_tracer_selection false false).2.2 rfl rfl⟩

/-- C9: with the sender flag absent the sender address is the 20-byte
address of fourteen zero bytes followed by the six ASCII bytes of the
sender literal (hex 73 65 6e 64 65 72); with the receiver flag absent the
receiver address is twelve zero bytes followed by the eight ASCII bytes of
the receiver literal; a supplied flag overrides the default through the
hex-address parser. -/
theorem c9_default_addresses (f : Flags) :
    (f.sender = [] →
      senderAddress f
        = [0, 0, 0, 0, 0, 0, 0, 0, 0, 0, 0, 0, 0, 0,
           0x73, 0x65, 0x6e, 0x64, 0x65, 0x72])
  ∧ (f.receiver = [] →
      receiverAddress f
        = [0, 0, 0, 0, 0, 0, 0, 0, 0, 0, 0, 0,
           0x72, 0x65, 0x63, 0x65, 0x69, 0x76, 0x65, 0x72])
  ∧ (f.sender ≠ [] → senderAddress f = hexToAddress f.sender)
  ∧ (f.receiver ≠ [] → receiverAddress f = hexToAddress f.receiver) := by
  refine ⟨?_, ?_, ?_, ?_⟩
  · intro h; simp [senderAddress, h]; decide
  · intro h; simp [receiverAddress, h]; decide
  · intro h; simp [senderAddress, h]
  · intro h; simp [receiverAddress, h]

/-- Flags overriding the sender with the four ASCII digits 0 0 f f. -/
def senderFlags : Flags := { baseFlags with sender := [0x30, 0x30, 0x66, 0x66] }

/-- C9 witness: both defaults on the empty flags, and a concrete override. -/
theorem c9_default_addresses_witness :
    senderAddress baseFlags
      = [0, 0, 0, 0, 0, 0, 0, 0, 0, 0, 0, 0, 0, 0,
         0x73, 0x65, 0x6e, 0x64, 0x65, 0x72]
  ∧ receiverAddress baseFlags
      = [0, 0, 0, 0, 0, 0, 0, 0, 0, 0, 0, 0,
         0x72, 0x65, 0x63, 0x65, 0x69, 0x76, 0x65, 0x72]
  ∧ senderAddress senderFlags = hexToAddress senderFlags.sender :=
  ⟨(c9_default_addresses baseFlags).1 rfl,
   (c9_default_addresses baseFlags).2.1 rfl,
   (c9_default_addresses senderFlags).2.2.1 (by decide)⟩

/-- C10: a leading ASCII 0x or 0X marker on an even-length string of valid
hex digits is stripped before decoding, so the prefixed and unprefixed
spellings decode to the same bytes (both through `common.FromHex`, which
`decodeHexFlag` applies to trimmed code and input strings alike). -/
theorem c10_hex_marker (hs : Bytes) (heven : hs.length % 2 = 0)
    (hhex : ∀ b ∈ hs, (hexDigitVal b).isSome) :
    fromHex (0x30 :: 0x78 :: hs) = hex2Bytes hs
  ∧ fromHex (0x30 :: 0x58 :: hs) = hex2Bytes hs
  ∧ fromHex hs = hex2Bytes hs := by
  have hpadded : padOdd hs = hs := by
    unfold padOdd
    rw [if_neg (by omega)]
  have hnomark : has0xMark hs = false := by
    match hs, hhex with
    | [], _ => rfl
    | [a], _ => rfl
    | a :: b :: t, hhex =>
      have hb : (hexDigitVal b).isSome := hhex b (by simp)
      have hb78 : b ≠ 0x78 := by
        intro h; rw [h] at hb; exact absurd hb (by decide)
      have hb58 : b ≠ 0x58 := by
        intro h; rw [h] at hb; exact absurd hb (by decide)
      show (a == 0x30 && (b == 0x78 || b == 0x58)) = false
      simp [hb78, hb58]
  refine ⟨?_, ?_, ?_⟩
  · show hex2Bytes (padOdd (strip0x (0x30 :: 0x78 :: hs))) = hex2Bytes hs
    rw [show strip0x (0x30 :: 0x78 :: hs) = hs from rfl, hpadded]
  · show hex2Bytes (padOdd (strip0x (0x30 :: 0x58 :: hs))) = hex2Bytes hs
    rw [show strip0x (0x30 :: 0x58 :: hs) = hs from rfl, hpadded]
  · show hex2Bytes (padOdd (strip0x hs)) = hex2Bytes hs
    unfold strip0x
    rw [hnomark, if_neg (by simp), hpadded]

/-- C10 witness: the two ASCII digits 6 0, with and without the marker. -/
theorem c10_hex_marker_witness :
    fromHex (0x30 :: 0x78 :: [0x36, 0x30]) = hex2Bytes [0x36, 0x30]
  ∧ fromHex (0x30 :: 0x58 :: [0x36, 0x30]) = hex2Bytes [0x36, 0x30]
  ∧ fromHex [0x36, 0x30] = hex2Bytes [0x36, 0x30] :=
  c10_hex_marker [0x36, 0x30] (by decide) (by decide)

end EvmRun
